import Mathlib

/-!
Verification of the `multiply` repository's core logic against its
natural-language specification.

The development shallowly embeds the two source files:

* `src/multiply/blast/annotator.py` — `BlastResultsAnnotator`: per-hit
  boolean derivation rules over BLAST `-outfmt 6` rows, filtering of
  predicted-bound hits, and per-primer aggregation.
* `src/multiply/generate/primers.py` — `Primer` / `PrimerPair` dataclasses
  and the primer3 report text parser.

Numeric columns that are Python ints are embedded as `Int`; float-valued
columns (`pident`, `evalue`) are embedded as `ℚ`, which is exact for the
comparisons the code performs (`== 100`, `< threshold`); float fields that
the code merely passes through unmodified (`tm`, `gc`, `pair_penalty`) are
embedded as their source text (`String`).

The Python string builtins the sources rely on (`str.split` with a
one-character separator, `str.strip`, `int(...)`, `str.startswith`,
slicing `[:-2]`) are embedded as structural functions over the string's
character list, so that every definition evaluates inside the kernel.
-/

namespace Multiply

/-! ### Python string builtins -/

/-- Whitespace for `str.strip` (the whitespace occurring in the inputs
considered: space, tab, newline, carriage return). -/
def isSpaceChar (c : Char) : Bool :=
  (c == ' ') || (c == '\t') || (c == '\n') || (c == '\r')

/-- `str.strip()`: remove leading and trailing whitespace. -/
def pyStrip (s : String) : String :=
  String.mk (((s.data.dropWhile isSpaceChar).reverse.dropWhile
    isSpaceChar).reverse)

/-- `list.split(sep)` on the character list, one-character separator:
splitting the empty text yields one empty piece, exactly as in Python. -/
def splitOnChar (sep : Char) : List Char → List (List Char)
  | [] => [[]]
  | c :: cs =>
    if c = sep then [] :: splitOnChar sep cs
    else
      match splitOnChar sep cs with
      | [] => [[c]]
      | g :: gs => (c :: g) :: gs

/-- `str.split(sep)` for the one-character separators the sources use
(`"="`, `","`, `"_"`). -/
def pySplit (s : String) (sep : Char) : List String :=
  (splitOnChar sep s.data).map (fun cs => String.mk cs)

/-- Accumulate decimal digits; any non-digit character fails. -/
def digitsToNatAux : List Char → Nat → Option Nat
  | [], acc => some acc
  | c :: cs, acc =>
    if c.isDigit then digitsToNatAux cs (acc * 10 + (c.toNat - 48))
    else none

/-- `int(s)`: optional surrounding whitespace, optional sign, at least
one decimal digit. -/
def pyInt (s : String) : Option Int :=
  match (pyStrip s).data with
  | [] => none
  | '-' :: cs =>
    if cs.isEmpty then none
    else (digitsToNatAux cs 0).map (fun n => -(n : Int))
  | '+' :: cs =>
    if cs.isEmpty then none
    else (digitsToNatAux cs 0).map (fun n => (n : Int))
  | cs => (digitsToNatAux cs 0).map (fun n => (n : Int))

/-- `str.startswith(pre)`. -/
def strStartsWith (s pre : String) : Bool :=
  pre.data.isPrefixOf s.data

/-- The slice `s[:-2]`: all but the last two characters, empty when the
text is shorter than two characters. -/
def pyDropLast2 (s : String) : String :=
  String.mk s.data.dropLast.dropLast

/-! ### BLAST hit annotation (`annotator.py`) -/

/-- One BLAST hit row, with the columns the annotator reads:
`qseqid`, `qend`, `length`, `pident`, `evalue`.  The code uses the single
column `length` both where the spec speaks of the alignment length and
where it speaks of the query's total length. -/
structure BlastHit where
  qseqid : String
  qend : Int
  length : Int
  pident : ℚ
  evalue : ℚ
  deriving DecidableEq, Repr

/-- A hit row after `add_annotations` has appended the four boolean
columns, in the order `build_annotation_dict` declares them. -/
structure AnnotatedHit extends BlastHit where
  from_3prime : Bool
  length_pass_3prime : Bool
  evalue_pass_3prime : Bool
  predicted_bound : Bool
  deriving DecidableEq, Repr

/-- Rule 1 of `build_annotation_dict`:
`lambda row: row["qend"] == row["length"]`. -/
def rule_from_3prime (row : BlastHit) : Bool :=
  row.qend == row.length

/-- Rule 2 of `build_annotation_dict`:
`lambda row: row["length"] >= length_threshold and row["pident"] == 100
and row["from_3prime"]`.  The `from_3prime` column has already been
materialised when this rule runs, so it is passed in explicitly. -/
def rule_length_pass_3prime (length_threshold : Int) (row : BlastHit)
    (from_3prime : Bool) : Bool :=
  decide (row.length ≥ length_threshold) && decide (row.pident = 100)
    && from_3prime

/-- Rule 3 of `build_annotation_dict`:
`lambda row: row["evalue"] < evalue_threshold and row["from_3prime"]`. -/
def rule_evalue_pass_3prime (evalue_threshold : ℚ) (row : BlastHit)
    (from_3prime : Bool) : Bool :=
  decide (row.evalue < evalue_threshold) && from_3prime

/-- Rule 4 of `build_annotation_dict`:
`lambda row: row["length_pass_3prime"] or row["evalue_pass_3prime"]`. -/
def rule_predicted_bound (length_pass_3prime evalue_pass_3prime : Bool) :
    Bool :=
  length_pass_3prime || evalue_pass_3prime

/-- `add_annotations` restricted to a single row: the four rules are
evaluated in declaration order, each value written back before the next
rule reads it (the code inserts each column into the frame before
applying the next rule, which is row-wise equivalent). -/
def annotateHit (length_threshold : Int) (evalue_threshold : ℚ)
    (row : BlastHit) : AnnotatedHit :=
  let f3 := rule_from_3prime row
  let lp := rule_length_pass_3prime length_threshold row f3
  let ep := rule_evalue_pass_3prime evalue_threshold row f3
  let pb := rule_predicted_bound lp ep
  { row with
    from_3prime := f3
    length_pass_3prime := lp
    evalue_pass_3prime := ep
    predicted_bound := pb }

/-- `add_annotations` over the whole frame. -/
def add_annots (length_threshold : Int) (evalue_threshold : ℚ)
    (df : List BlastHit) : List AnnotatedHit :=
  df.map (annotateHit length_threshold evalue_threshold)

/-- Re-evaluation of rule 1 on a row that already carries the four
derived columns (the lambda only reads base columns). -/
def reeval_from_3prime (row : AnnotatedHit) : Bool :=
  rule_from_3prime row.toBlastHit

/-- Re-evaluation of rule 2 on an already-annotated row: the lambda reads
the stored `from_3prime` column. -/
def reeval_length_pass_3prime (length_threshold : Int)
    (row : AnnotatedHit) : Bool :=
  rule_length_pass_3prime length_threshold row.toBlastHit row.from_3prime

/-- Re-evaluation of rule 3 on an already-annotated row. -/
def reeval_evalue_pass_3prime (evalue_threshold : ℚ)
    (row : AnnotatedHit) : Bool :=
  rule_evalue_pass_3prime evalue_threshold row.toBlastHit row.from_3prime

/-- Re-evaluation of rule 4 on an already-annotated row: the lambda reads
the stored `length_pass_3prime` and `evalue_pass_3prime` columns. -/
def reeval_predicted_bound (row : AnnotatedHit) : Bool :=
  rule_predicted_bound row.length_pass_3prime row.evalue_pass_3prime

/-- The state of the annotator's frame as far as `get_predicted_bound` can
observe it: either the raw frame (the `predicted_bound` column is absent)
or the frame after `add_annotations` (all four columns present). -/
inductive BlastDF where
  | raw : List BlastHit → BlastDF
  | annotated : List AnnotatedHit → BlastDF
  deriving DecidableEq, Repr

/-- Whether `"predicted_bound" in self.blast_df` holds. -/
def hasPredictedBoundCol : BlastDF → Bool
  | .raw _ => false
  | .annotated _ => true

/-- The message of the `ValueError` raised by `get_predicted_bound`. -/
def missingColMsg : String :=
  "`blast_df` must contain a column `predicted_bound`. Try running `.add_annotations()` first."

/-- `get_predicted_bound`: raises when the `predicted_bound` column is
absent, otherwise `self.blast_df.query("predicted_bound")` keeps exactly
the rows whose `predicted_bound` value is true. -/
def get_predicted_bound : BlastDF → Except String (List AnnotatedHit)
  | .raw _ => Except.error missingColMsg
  | .annotated hits => Except.ok (hits.filter (fun h => h.predicted_bound))

/-- Whether a fallible result is a success. -/
def exceptIsOk {ε α : Type} : Except ε α → Bool
  | .ok _ => true
  | .error _ => false

/-! ### Per-primer aggregation (`summarise_by_primer`) -/

/-- One row of the per-primer summary frame: the namedtuple
`PrimerBlastRecord` with fields `primer_name`, `primer_pair_name`,
`target_name`, `total_alignments` plus one integer count per derived
column, in declaration order. -/
structure PrimerBlastRecord where
  primer_name : String
  primer_pair_name : String
  target_name : String
  total_alignments : Nat
  from_3prime : Nat
  length_pass_3prime : Nat
  evalue_pass_3prime : Nat
  predicted_bound : Nat
  deriving DecidableEq, Repr

/-- Keep one copy of each key (`groupby` groups equal keys together; the
retained occurrence is irrelevant because the keys are sorted
afterwards). -/
def dedupKeys : List String → List String
  | [] => []
  | x :: xs => if x ∈ xs then dedupKeys xs else x :: dedupKeys xs

/-- Lexicographic comparison of character lists by code point, Python's
ordering on strings. -/
def charListLt : List Char → List Char → Bool
  | [], [] => false
  | [], _ :: _ => true
  | _ :: _, [] => false
  | a :: as, b :: bs =>
    if a.toNat < b.toNat then true
    else if b.toNat < a.toNat then false
    else charListLt as bs

/-- `a < b` on strings, by code point. -/
def strLt (a b : String) : Bool :=
  charListLt a.data b.data

/-- Insert a key into an ascending list of keys. -/
def insertKeyAsc (x : String) : List String → List String
  | [] => [x]
  | y :: ys => if strLt x y then x :: y :: ys else y :: insertKeyAsc x ys

/-- Sort keys ascending, as `DataFrame.groupby` sorts its group keys. -/
def sortKeysAsc : List String → List String
  | [] => []
  | x :: xs => insertKeyAsc x (sortKeysAsc xs)

/-- The summary row built for one `qseqid` group:
`primer_pair_name = qseqid[:-2]`, `target_name = qseqid.split("_")[0]`,
`total_alignments = qseqid_df.shape[0]`, and one count per derived column
(`.sum()` over a boolean column counts its true entries). -/
def summaryRecord (hits : List AnnotatedHit) (qseqid : String) :
    PrimerBlastRecord :=
  let g := hits.filter (fun h => h.qseqid == qseqid)
  { primer_name := qseqid
    primer_pair_name := pyDropLast2 qseqid
    target_name := (pySplit qseqid '_').headD ""
    total_alignments := g.length
    from_3prime := (g.filter (fun h => h.from_3prime)).length
    length_pass_3prime := (g.filter (fun h => h.length_pass_3prime)).length
    evalue_pass_3prime := (g.filter (fun h => h.evalue_pass_3prime)).length
    predicted_bound := (g.filter (fun h => h.predicted_bound)).length }

/-- The list comprehension over `self.blast_df.groupby("qseqid")`: one
record per distinct key, keys in ascending order. -/
def summaryRecords (hits : List AnnotatedHit) : List PrimerBlastRecord :=
  (sortKeysAsc (dedupKeys (hits.map (fun h => h.qseqid)))).map
    (summaryRecord hits)

/-- Comparison of summary rows by their `predicted_bound` count. -/
def pbLE (a b : PrimerBlastRecord) : Prop :=
  a.predicted_bound ≤ b.predicted_bound

instance : DecidableRel pbLE := fun a b =>
  Nat.decLe a.predicted_bound b.predicted_bound

instance : IsTotal PrimerBlastRecord pbLE :=
  ⟨fun a b => Nat.le_total a.predicted_bound b.predicted_bound⟩

instance : IsTrans PrimerBlastRecord pbLE :=
  ⟨fun _ _ _ h h2 => Nat.le_trans h h2⟩

/-- `DataFrame.sort_values("predicted_bound", ascending=False)` with the
default sort kind: pandas `nargsort` reverses the key values together
with their row indices, computes an ascending argsort of the reversed
values, and reverses the resulting indexer — so the descending result is
the reverse of an ascending sort of the reversed rows.  When the
underlying argsort kernel is stable this preserves the input order of
tied rows; numpy's default kind degenerates to a stable insertion sort
at the frame sizes evaluated here, while its tie behaviour on larger
frames is not specified. -/
def sort_values_desc (records : List PrimerBlastRecord) :
    List PrimerBlastRecord :=
  (List.insertionSort pbLE records.reverse).reverse

/-- `summarise_by_primer`: group, summarise, then sort by the
`predicted_bound` count descending. -/
def summarise_by_primer (hits : List AnnotatedHit) :
    List PrimerBlastRecord :=
  sort_values_desc (summaryRecords hits)

/-! ### Primer pairs (`primers.py`) -/

/-- Modelled from the spec: the `Target` class of
`multiply.generate.targets` is not part of the sources under
verification; the spec only says primers and pairs carry an optional
associated target, unset unless attached by an external collaborator and
never inspected by the code verified here. -/
structure Target where
  name : String
  deriving DecidableEq, Repr

/-- The `Primer` dataclass.  `tm` and `gc` are float values the code only
passes through unmodified; they are embedded as their source text. -/
structure Primer where
  seq : String
  direction : String
  start : Int
  length : Int
  tm : String
  gc : String
  target : Option Target := none
  deriving DecidableEq, Repr

/-- The `PrimerPair` dataclass.  `pair_penalty` is a pass-through float,
embedded as its source text; `pair_id` has dataclass default `""`. -/
structure PrimerPair where
  F : Primer
  R : Primer
  product_bp : Int
  pair_penalty : String
  pair_id : String := ""
  target : Option Target := none
  deriving DecidableEq, Repr

/-- `f"{seq}-{start}-{length}"` for one primer. -/
def primerInfo (p : Primer) : String :=
  p.seq ++ "-" ++ toString p.start ++ "-" ++ toString p.length

/-- The derived pair identifier `F_info + "+" + R_info`. -/
def derivePairId (F R : Primer) : String :=
  primerInfo F ++ "+" ++ primerInfo R

/-- `PrimerPair.__post_init__`: unconditionally overwrites `pair_id` with
the identifier derived from the two primers. -/
def PrimerPair.post_init (p : PrimerPair) : PrimerPair :=
  { p with pair_id := derivePairId p.F p.R }

/-- Dataclass construction: Python always runs `__post_init__` after
field assignment, whatever `pair_id` value the caller supplied. -/
def mkPrimerPair (F R : Primer) (product_bp : Int) (pair_penalty : String)
    (pair_id : String := "") (target : Option Target := none) :
    PrimerPair :=
  PrimerPair.post_init
    { F := F, R := R, product_bp := product_bp,
      pair_penalty := pair_penalty, pair_id := pair_id, target := target }

/-- `PrimerPair.__eq__`: comparison of the `pair_id` fields. -/
def pairBeq (p q : PrimerPair) : Bool :=
  p.pair_id == q.pair_id

/-- `PrimerPair.__hash__` is `hash(self.pair_id)`: some fixed
deterministic hash of the `pair_id` string. -/
def pairHashVal (p : PrimerPair) : UInt64 :=
  hash p.pair_id

/-! ### primer3 report parsing -/

/-- Python `int(...)` on a string of the report. -/
def intOf (s : String) : Except String Int :=
  match pyInt s with
  | some n => Except.ok n
  | none => Except.error ("ValueError: invalid int literal " ++ s)

/-- `int(line.strip().split("=")[1])` on the marker line: index 1 of the
split raises when there is no `=`; a non-numeric count raises. -/
def parseMarkerCount (line : String) : Except String Int :=
  match pySplit (pyStrip line) '=' with
  | _ :: v :: _ => intOf v
  | _ => Except.error ("IndexError: " ++ line)

/-- The scan `for line in f: if line.startswith("PRIMER_PAIR_NUM_RETURNED")`.
When the report ends before the marker is found, the loop falls through
and the later read of `n_returned` raises — a failure carrying no
result. -/
def findMarker : List String → Except String (Int × List String)
  | [] => Except.error "UnboundLocalError: n_returned"
  | l :: rest =>
    if strStartsWith l "PRIMER_PAIR_NUM_RETURNED" then
      (parseMarkerCount l).map (fun n => (n, rest))
    else findMarker rest

/-- One line of the key/value section: `k, v = l.split("=")` with
`v.strip()` — exactly one `=` per line, or the unpacking raises. -/
def parseKV (l : String) : Except String (String × String) :=
  match pySplit l '=' with
  | [k, v] => Except.ok (k, pyStrip v)
  | _ => Except.error ("ValueError: unpack " ++ l)

/-- The dict comprehension over the remaining lines, kept in file
order. -/
def buildDict : List String → Except String (List (String × String))
  | [] => Except.ok []
  | l :: rest => do
    let kv ← parseKV l
    let dt ← buildDict rest
    Except.ok (kv :: dt)

/-- Python dict lookup on the comprehension's result: duplicate keys were
overwritten in insertion order, so the last binding wins; a missing key
raises `KeyError`. -/
def dictGet (dt : List (String × String)) (k : String) :
    Except String String :=
  match dt.reverse.find? (fun kv => kv.1 == k) with
  | some kv => Except.ok kv.2
  | none => Except.error ("KeyError: " ++ k)

/-- `s, l = primer3_dt[primer_name].split(",")`: tuple unpacking demands
exactly one comma. -/
def unpackTwo (sl : String) : Except String (String × String) :=
  match pySplit sl ',' with
  | [s, l] => Except.ok (s, l)
  | _ => Except.error ("ValueError: unpack " ++ sl)

/-- One primer of one pair index, in the source's evaluation order:
`primer3_dt[primer_name].split(",")` unpacked into `s, l`, then the
`Primer(...)` keyword arguments left to right (sequence lookup, direction
normalisation LEFT→`F` / RIGHT→`R`, `int(s)`, `int(l)`, melting
temperature, GC percent; the two latter float conversions are
pass-through). -/
def parsePrimer (dt : List (String × String)) (d : String) (ix : Nat) :
    Except String Primer := do
  let primer_name := "PRIMER_" ++ d ++ "_" ++ toString ix
  let sl ← dictGet dt primer_name
  let sPair ← unpackTwo sl
  let seq ← dictGet dt (primer_name ++ "_SEQUENCE")
  let start ← intOf sPair.1
  let len ← intOf sPair.2
  let tm ← dictGet dt (primer_name ++ "_TM")
  let gc ← dictGet dt (primer_name ++ "_GC_PERCENT")
  Except.ok
    { seq := seq, direction := if d == "LEFT" then "F" else "R",
      start := start, length := len, tm := tm, gc := gc, target := none }

/-- One pair index: the LEFT primer, the RIGHT primer, then the pair-level
metrics, combined by the `PrimerPair(...)` constructor (LEFT as `F`,
RIGHT as `R`). -/
def getPair (dt : List (String × String)) (ix : Nat) :
    Except String PrimerPair := do
  let Fp ← parsePrimer dt "LEFT" ix
  let Rp ← parsePrimer dt "RIGHT" ix
  let pair_name := "PRIMER_PAIR_" ++ toString ix
  let ps ← dictGet dt (pair_name ++ "_PRODUCT_SIZE")
  let product_bp ← intOf ps
  let pen ← dictGet dt (pair_name ++ "_PENALTY")
  Except.ok (mkPrimerPair Fp Rp product_bp pen)

/-- The `for ix in ixs` loop appending one pair per index; the first
failure aborts the whole parse with no partial list. -/
def buildPairs (dt : List (String × String)) :
    List Nat → Except String (List PrimerPair)
  | [] => Except.ok []
  | ix :: rest => do
    let pr ← getPair dt ix
    let prs ← buildPairs dt rest
    Except.ok (pr :: prs)

/-- `load_primer_pairs_from_primer3_output` over the report's lines:
scan for the marker, return `[]` when zero pairs were declared, otherwise
build the dictionary from the remaining lines and the pairs for indexes
`np.arange(n_returned)` (empty when the count is negative, hence
`Int.toNat`). -/
def load_primer_pairs_from_primer3_output (lines : List String) :
    Except String (List PrimerPair) := do
  let nr ← findMarker lines
  if nr.1 == 0 then
    Except.ok []
  else do
    let dt ← buildDict nr.2
    buildPairs dt (List.range nr.1.toNat)

/-! ### Concrete data for witnesses and for the counterexample -/

/-- The spec's §8 sample hit. -/
def sampleHit : BlastHit :=
  { qseqid := "T1_F", qend := 20, length := 20, pident := 100,
    evalue := 10 }

/-- The sample frame, annotated with the default thresholds. -/
def wHits : List AnnotatedHit := add_annots 12 4 [sampleHit]

/-- The summary row the sample frame produces. -/
def wRec : PrimerBlastRecord :=
  { primer_name := "T1_F", primer_pair_name := "T1", target_name := "T1",
    total_alignments := 1, from_3prime := 1, length_pass_3prime := 1,
    evalue_pass_3prime := 0, predicted_bound := 1 }

/-- The lines of a well-formed two-pair primer3 report after its marker
line. -/
def demoRest : List String :=
  [ "PRIMER_PAIR_0_PENALTY=0.2",
    "PRIMER_PAIR_0_PRODUCT_SIZE=210",
    "PRIMER_LEFT_0=10,20",
    "PRIMER_LEFT_0_SEQUENCE=ACGTACGTACGTACGTACGT",
    "PRIMER_LEFT_0_TM=59.9",
    "PRIMER_LEFT_0_GC_PERCENT=50.0",
    "PRIMER_RIGHT_0=219,20",
    "PRIMER_RIGHT_0_SEQUENCE=TGCATGCATGCATGCATGCA",
    "PRIMER_RIGHT_0_TM=60.1",
    "PRIMER_RIGHT_0_GC_PERCENT=45.0",
    "PRIMER_PAIR_1_PENALTY=0.5",
    "PRIMER_PAIR_1_PRODUCT_SIZE=229",
    "PRIMER_LEFT_1=30,18",
    "PRIMER_LEFT_1_SEQUENCE=AAACGTACGTACGTACGT",
    "PRIMER_LEFT_1_TM=58.0",
    "PRIMER_LEFT_1_GC_PERCENT=44.4",
    "PRIMER_RIGHT_1=240,18",
    "PRIMER_RIGHT_1_SEQUENCE=CCCTGCATGCATGCATGC",
    "PRIMER_RIGHT_1_TM=58.5",
    "PRIMER_RIGHT_1_GC_PERCENT=55.6" ]

/-- The full two-pair report. -/
def demoLines : List String := "PRIMER_PAIR_NUM_RETURNED=2" :: demoRest

/-- The key/value dictionary the report's tail parses to. -/
def demoDict : List (String × String) :=
  [ ("PRIMER_PAIR_0_PENALTY", "0.2"),
    ("PRIMER_PAIR_0_PRODUCT_SIZE", "210"),
    ("PRIMER_LEFT_0", "10,20"),
    ("PRIMER_LEFT_0_SEQUENCE", "ACGTACGTACGTACGTACGT"),
    ("PRIMER_LEFT_0_TM", "59.9"),
    ("PRIMER_LEFT_0_GC_PERCENT", "50.0"),
    ("PRIMER_RIGHT_0", "219,20"),
    ("PRIMER_RIGHT_0_SEQUENCE", "TGCATGCATGCATGCATGCA"),
    ("PRIMER_RIGHT_0_TM", "60.1"),
    ("PRIMER_RIGHT_0_GC_PERCENT", "45.0"),
    ("PRIMER_PAIR_1_PENALTY", "0.5"),
    ("PRIMER_PAIR_1_PRODUCT_SIZE", "229"),
    ("PRIMER_LEFT_1", "30,18"),
    ("PRIMER_LEFT_1_SEQUENCE", "AAACGTACGTACGTACGT"),
    ("PRIMER_LEFT_1_TM", "58.0"),
    ("PRIMER_LEFT_1_GC_PERCENT", "44.4"),
    ("PRIMER_RIGHT_1", "240,18"),
    ("PRIMER_RIGHT_1_SEQUENCE", "CCCTGCATGCATGCATGC"),
    ("PRIMER_RIGHT_1_TM", "58.5"),
    ("PRIMER_RIGHT_1_GC_PERCENT", "55.6") ]

/-- The pair the report declares at index 0. -/
def demoPair0 : PrimerPair :=
  mkPrimerPair
    { seq := "ACGTACGTACGTACGTACGT", direction := "F", start := 10,
      length := 20, tm := "59.9", gc := "50.0" }
    { seq := "TGCATGCATGCATGCATGCA", direction := "R", start := 219,
      length := 20, tm := "60.1", gc := "45.0" }
    210 "0.2"

/-- The pair the report declares at index 1. -/
def demoPair1 : PrimerPair :=
  mkPrimerPair
    { seq := "AAACGTACGTACGTACGT", direction := "F", start := 30,
      length := 18, tm := "58.0", gc := "44.4" }
    { seq := "CCCTGCATGCATGCATGC", direction := "R", start := 240,
      length := 18, tm := "58.5", gc := "55.6" }
    229 "0.5"

/-- The report's pairs, by index. -/
def demoPs : Nat → PrimerPair := fun i =>
  if i = 0 then demoPair0 else demoPair1

/-- A forward primer for the identity witness. -/
def wPrimerF : Primer :=
  { seq := "ACGTACGTACGTACGTACGT", direction := "F", start := 10,
    length := 20, tm := "59.9", gc := "50.0" }

/-- A reverse primer for the identity witness. -/
def wPrimerR : Primer :=
  { seq := "TGCATGCATGCATGCATGCA", direction := "R", start := 219,
    length := 20, tm := "60.1", gc := "45.0" }

/-- The same forward primer with a different melting temperature. -/
def wPrimerF2 : Primer :=
  { seq := "ACGTACGTACGTACGTACGT", direction := "F", start := 10,
    length := 20, tm := "61.0", gc := "50.0" }

end Multiply

namespace Multiply

/-! ### Helper lemmas -/

/-- A fallible computation succeeds exactly when its first stage succeeds
and the continuation succeeds on the produced value. -/
theorem exceptBind_ok_iff {ε α β : Type} (x : Except ε α)
    (f : α → Except ε β) (b : β) :
    (x >>= f) = Except.ok b ↔ ∃ a, x = Except.ok a ∧ f a = Except.ok b := by
  cases x with
  | error e =>
    show Except.error e = Except.ok b ↔ _
    simp
  | ok a =>
    show f a = Except.ok b ↔ _
    simp

/-- A successfully parsed primer's direction is `F` for LEFT and `R` for
RIGHT. -/
theorem parsePrimer_direction (dt : List (String × String)) (d : String)
    (ix : Nat) (p : Primer) (h : parsePrimer dt d ix = Except.ok p) :
    p.direction = (if d == "LEFT" then "F" else "R") := by
  simp only [parsePrimer, exceptBind_ok_iff] at h
  obtain ⟨sl, _, sPair, _, seq, _, start, _, len, _, tm, _, gc, _, hfin⟩ := h
  cases hfin
  rfl

/-- A successfully built pair is assembled from the successfully parsed
LEFT primer as `F` and RIGHT primer as `R`. -/
theorem getPair_ok_parts (dt : List (String × String)) (ix : Nat)
    (pr : PrimerPair) (h : getPair dt ix = Except.ok pr) :
    parsePrimer dt "LEFT" ix = Except.ok pr.F
      ∧ parsePrimer dt "RIGHT" ix = Except.ok pr.R
      ∧ pr.F.direction = "F" ∧ pr.R.direction = "R" := by
  simp only [getPair, exceptBind_ok_iff] at h
  obtain ⟨Fp, hF, Rp, hR, ps, _, product, _, pen, _, hfin⟩ := h
  cases hfin
  refine ⟨hF, hR, ?_, ?_⟩
  · exact parsePrimer_direction dt "LEFT" ix Fp hF
  · exact parsePrimer_direction dt "RIGHT" ix Rp hR

/-- The index loop builds exactly one pair per index, in order, when every
index extraction succeeds. -/
theorem buildPairs_ok (dt : List (String × String)) (ps : Nat → PrimerPair) :
    ∀ ixs : List Nat, (∀ i ∈ ixs, getPair dt i = Except.ok (ps i)) →
      buildPairs dt ixs = Except.ok (ixs.map ps)
  | [], _ => rfl
  | ix :: rest, h => by
    have h1 : getPair dt ix = Except.ok (ps ix) := h ix (by simp)
    have h2 : buildPairs dt rest = Except.ok (rest.map ps) :=
      buildPairs_ok dt ps rest (fun i hi => h i (by simp [hi]))
    show (getPair dt ix >>= fun pr =>
        buildPairs dt rest >>= fun prs => Except.ok (pr :: prs))
      = Except.ok ((ix :: rest).map ps)
    rw [h1, h2]
    rfl

/-! ### Claims -/

/-- C1: for every hit (and any thresholds), the `from_3prime` column
produced by annotation is true exactly when the hit's query alignment end
offset `qend` equals the value of the hit's `length` column — the
quantity the spec calls the query sequence's total length. -/
theorem from_3prime_iff_qend_eq_length (length_threshold : Int)
    (evalue_threshold : ℚ) (row : BlastHit) :
    (annotateHit length_threshold evalue_threshold row).from_3prime
        = (row.qend == row.length)
      ∧ ((annotateHit length_threshold evalue_threshold row).from_3prime
            = true ↔ row.qend = row.length) := by
  constructor
  · rfl
  · show (row.qend == row.length) = true ↔ row.qend = row.length
    exact beq_iff_eq

/-- C2: for every annotated hit, `predicted_bound` is the disjunction of
`length_pass_3prime` and `evalue_pass_3prime`, and each of those two
columns being true forces `from_3prime` to be true. -/
theorem predicted_bound_structure (length_threshold : Int)
    (evalue_threshold : ℚ) (row : BlastHit) :
    (annotateHit length_threshold evalue_threshold row).predicted_bound
        = ((annotateHit length_threshold evalue_threshold row).length_pass_3prime
            || (annotateHit length_threshold evalue_threshold row).evalue_pass_3prime)
      ∧ ((annotateHit length_threshold evalue_threshold row).length_pass_3prime = true
          → (annotateHit length_threshold evalue_threshold row).from_3prime = true)
      ∧ ((annotateHit length_threshold evalue_threshold row).evalue_pass_3prime = true
          → (annotateHit length_threshold evalue_threshold row).from_3prime = true) := by
  refine ⟨rfl, ?_, ?_⟩
  · intro h
    simp only [annotateHit, rule_length_pass_3prime, Bool.and_eq_true] at h
    exact h.2
  · intro h
    simp only [annotateHit, rule_evalue_pass_3prime, Bool.and_eq_true] at h
    exact h.2

/-- Witness for C2 at the spec's sample hit (thresholds 12 and 4): both
hypotheses are discharged concretely. -/
theorem predicted_bound_structure_witness :
    (annotateHit 12 4
        { qseqid := "T1_F", qend := 20, length := 20, pident := 100,
          evalue := 1 }).from_3prime = true
      ∧ (annotateHit 12 4
          { qseqid := "T1_F", qend := 20, length := 20, pident := 100,
            evalue := 1 }).from_3prime = true :=
  ⟨(predicted_bound_structure 12 4
      { qseqid := "T1_F", qend := 20, length := 20, pident := 100,
        evalue := 1 }).2.1 (by decide),
   (predicted_bound_structure 12 4
      { qseqid := "T1_F", qend := 20, length := 20, pident := 100,
        evalue := 1 }).2.2 (by decide)⟩

/-- C8: annotation is idempotent and deterministic — re-evaluating each of
the four rules on a row already annotated with the same thresholds
returns exactly the stored boolean values. -/
theorem annotation_idempotent (length_threshold : Int)
    (evalue_threshold : ℚ) (row : BlastHit) :
    reeval_from_3prime (annotateHit length_threshold evalue_threshold row)
        = (annotateHit length_threshold evalue_threshold row).from_3prime
      ∧ reeval_length_pass_3prime length_threshold
            (annotateHit length_threshold evalue_threshold row)
          = (annotateHit length_threshold evalue_threshold
              row).length_pass_3prime
      ∧ reeval_evalue_pass_3prime evalue_threshold
            (annotateHit length_threshold evalue_threshold row)
          = (annotateHit length_threshold evalue_threshold
              row).evalue_pass_3prime
      ∧ reeval_predicted_bound
            (annotateHit length_threshold evalue_threshold row)
          = (annotateHit length_threshold evalue_threshold
              row).predicted_bound :=
  ⟨rfl, rfl, rfl, rfl⟩

/-- C3: `get_predicted_bound` fails (with the usage message telling the
caller to run `add_annotations` first) exactly when the `predicted_bound`
column is absent; when the column is present it returns precisely the
rows whose `predicted_bound` value is true, and on an empty annotated
frame it succeeds with the empty subset — a success, unlike the
missing-column failure. -/
theorem get_predicted_bound_spec :
    (∀ hits : List BlastHit,
        get_predicted_bound (BlastDF.raw hits) = Except.error missingColMsg
          ∧ hasPredictedBoundCol (BlastDF.raw hits) = false
          ∧ exceptIsOk (get_predicted_bound (BlastDF.raw hits)) = false)
      ∧ (∀ hits : List AnnotatedHit,
          hasPredictedBoundCol (BlastDF.annotated hits) = true
            ∧ get_predicted_bound (BlastDF.annotated hits)
                = Except.ok (hits.filter (fun h => h.predicted_bound))
            ∧ exceptIsOk (get_predicted_bound (BlastDF.annotated hits))
                = true)
      ∧ get_predicted_bound (BlastDF.annotated []) = Except.ok []
      ∧ exceptIsOk (get_predicted_bound (BlastDF.annotated [])) = true :=
  ⟨fun _ => ⟨rfl, rfl, rfl⟩, fun _ => ⟨rfl, rfl, rfl⟩, rfl, rfl⟩

/-- C4: every row of the per-primer summary counts its own group exactly:
`total_alignments` is the number of hits carrying that row's `qseqid`,
each per-column count is the number of hits of the group where the column
is true, and hence every count is at most `total_alignments`. -/
theorem summarise_counts (hits : List AnnotatedHit) (r : PrimerBlastRecord)
    (hr : r ∈ summarise_by_primer hits) :
    r.total_alignments
        = (hits.filter (fun h => h.qseqid == r.primer_name)).length
      ∧ r.from_3prime
        = ((hits.filter (fun h => h.qseqid == r.primer_name)).filter
            (fun h => h.from_3prime)).length
      ∧ r.length_pass_3prime
        = ((hits.filter (fun h => h.qseqid == r.primer_name)).filter
            (fun h => h.length_pass_3prime)).length
      ∧ r.evalue_pass_3prime
        = ((hits.filter (fun h => h.qseqid == r.primer_name)).filter
            (fun h => h.evalue_pass_3prime)).length
      ∧ r.predicted_bound
        = ((hits.filter (fun h => h.qseqid == r.primer_name)).filter
            (fun h => h.predicted_bound)).length
      ∧ r.from_3prime ≤ r.total_alignments
      ∧ r.length_pass_3prime ≤ r.total_alignments
      ∧ r.evalue_pass_3prime ≤ r.total_alignments
      ∧ r.predicted_bound ≤ r.total_alignments := by
  have h1 : r ∈ summaryRecords hits := by
    have h2 := List.mem_reverse.mp hr
    have h3 :=
      (List.perm_insertionSort pbLE (summaryRecords hits).reverse).mem_iff.mp
        h2
    exact List.mem_reverse.mp h3
  obtain ⟨q, hq, rfl⟩ := List.mem_map.mp h1
  refine ⟨rfl, rfl, rfl, rfl, rfl, ?_, ?_, ?_, ?_⟩ <;>
    exact List.length_filter_le _ _

set_option maxRecDepth 8192 in
/-- Witness for C4: the spec's §8 sample scenario — one hit for primer
`T1_F`; its summary row is in the output and the theorem applies to
it. -/
theorem summarise_counts_witness :
    wRec.total_alignments
        = (wHits.filter (fun h => h.qseqid == wRec.primer_name)).length
      ∧ wRec.predicted_bound ≤ wRec.total_alignments :=
  ⟨(summarise_counts wHits wRec (by decide)).1,
   (summarise_counts wHits wRec (by decide)).2.2.2.2.2.2.2.2⟩

/-- C6: for a report whose marker scan yields the declared count `n` and
whose remaining lines parse into the key/value dictionary, if every index
below `n` extracts a pair, the parser returns exactly those `n` pairs in
index order `0..n-1`; every returned pair carries the LEFT primer as `F`
and the RIGHT primer as `R`; and a declared count of zero yields the
empty collection without error. -/
theorem load_pairs_completeness (lines rest : List String) (n : Nat)
    (dt : List (String × String)) (ps : Nat → PrimerPair)
    (hm : findMarker lines = Except.ok ((n : Int), rest))
    (hd : buildDict rest = Except.ok dt)
    (hp : ∀ i, i < n → getPair dt i = Except.ok (ps i)) :
    load_primer_pairs_from_primer3_output lines
        = Except.ok ((List.range n).map ps)
      ∧ ((List.range n).map ps).length = n
      ∧ (∀ i, i < n →
          parsePrimer dt "LEFT" i = Except.ok (ps i).F
            ∧ parsePrimer dt "RIGHT" i = Except.ok (ps i).R
            ∧ (ps i).F.direction = "F" ∧ (ps i).R.direction = "R")
      ∧ (n = 0 →
          load_primer_pairs_from_primer3_output lines = Except.ok []) := by
  have hbuild : buildPairs dt (List.range n)
      = Except.ok ((List.range n).map ps) :=
    buildPairs_ok dt ps (List.range n)
      (fun i hi => hp i (List.mem_range.mp hi))
  have hmain : load_primer_pairs_from_primer3_output lines
      = Except.ok ((List.range n).map ps) := by
    unfold load_primer_pairs_from_primer3_output
    rw [hm]
    show (if ((n : Int) == 0) = true then Except.ok [] else _)
        = Except.ok ((List.range n).map ps)
    by_cases hn : n = 0
    · subst hn
      rfl
    · have hne : ((n : Int) == 0) = false := by
        simp [Int.natCast_eq_zero, hn]
      rw [hne]
      show (buildDict rest >>= fun dt2 =>
          buildPairs dt2 (List.range (Int.toNat n))) = _
      rw [hd]
      show buildPairs dt (List.range (Int.toNat n)) = _
      rw [Int.toNat_natCast]
      exact hbuild
  refine ⟨hmain, ?_, ?_, ?_⟩
  · simp
  · intro i hi
    exact getPair_ok_parts dt i (ps i) (hp i hi)
  · intro hn
    subst hn
    simpa using hmain

set_option maxRecDepth 8192 in
/-- Witness for C6: the concrete two-pair report is parsed into its two
pairs, in index order. -/
theorem load_pairs_completeness_witness :
    load_primer_pairs_from_primer3_output demoLines
      = Except.ok ((List.range 2).map demoPs) :=
  (load_pairs_completeness demoLines demoRest 2 demoDict demoPs rfl rfl
    (fun i hi =>
      match i, hi with
      | 0, _ => rfl
      | 1, _ => rfl
      | n + 2, hi => absurd hi (by omega))).1

/-- C7: a report none of whose lines starts with the
`PRIMER_PAIR_NUM_RETURNED` marker makes the parser fail — the scan falls
off the end of the file and the subsequent read of the never-assigned
count raises — and the failure carries no primer pairs. -/
theorem load_missing_marker (lines : List String)
    (h : ∀ l ∈ lines, strStartsWith l "PRIMER_PAIR_NUM_RETURNED" = false) :
    load_primer_pairs_from_primer3_output lines
      = Except.error "UnboundLocalError: n_returned" := by
  have hm : findMarker lines
      = Except.error "UnboundLocalError: n_returned" := by
    induction lines with
    | nil => rfl
    | cons l rest ih =>
      have hl := h l (List.mem_cons_self l rest)
      have hrest := ih (fun x hx => h x (List.mem_cons_of_mem l hx))
      simp only [findMarker, hl]
      simpa using hrest
  unfold load_primer_pairs_from_primer3_output
  rw [hm]
  rfl

/-- Witness for C7: a concrete two-line report with no marker line. -/
theorem load_missing_marker_witness :
    load_primer_pairs_from_primer3_output ["FOO=1", "BAR=2"]
      = Except.error "UnboundLocalError: n_returned" :=
  load_missing_marker ["FOO=1", "BAR=2"] (by decide)

/-- C10: construction always runs `__post_init__`, so whatever `pair_id`
the caller supplies is unconditionally overwritten with the identifier
derived from the two primers' sequence, start and length. -/
theorem pair_id_always_derived (F R : Primer) (product_bp : Int)
    (pair_penalty pair_id : String) (target : Option Target) :
    (mkPrimerPair F R product_bp pair_penalty pair_id target).pair_id
      = derivePairId F R :=
  rfl

/-- C9: constructed pairs are `__eq__`-equal with equal `__hash__` values
exactly when their derived `pair_id` strings match; in particular, pairs
built from primers with identical sequence, start and length on both
sides are equal and hash identically even when `pair_penalty`,
`product_bp` or any other non-identity field differs. -/
theorem primer_pair_identity :
    (∀ (F R F2 R2 : Primer) (bp bp2 : Int) (pen pen2 pid pid2 : String)
        (t t2 : Option Target),
        (pairBeq (mkPrimerPair F R bp pen pid t)
              (mkPrimerPair F2 R2 bp2 pen2 pid2 t2) = true
          ∧ pairHashVal (mkPrimerPair F R bp pen pid t)
              = pairHashVal (mkPrimerPair F2 R2 bp2 pen2 pid2 t2))
          ↔ derivePairId F R = derivePairId F2 R2)
      ∧ (∀ (F R F2 R2 : Primer) (bp bp2 : Int) (pen pen2 pid pid2 : String)
          (t t2 : Option Target),
          F.seq = F2.seq → F.start = F2.start → F.length = F2.length →
          R.seq = R2.seq → R.start = R2.start → R.length = R2.length →
          pairBeq (mkPrimerPair F R bp pen pid t)
              (mkPrimerPair F2 R2 bp2 pen2 pid2 t2) = true
            ∧ pairHashVal (mkPrimerPair F R bp pen pid t)
                = pairHashVal (mkPrimerPair F2 R2 bp2 pen2 pid2 t2)) := by
  have key : ∀ (F R F2 R2 : Primer) (bp bp2 : Int)
      (pen pen2 pid pid2 : String) (t t2 : Option Target),
      derivePairId F R = derivePairId F2 R2 →
      pairBeq (mkPrimerPair F R bp pen pid t)
          (mkPrimerPair F2 R2 bp2 pen2 pid2 t2) = true
        ∧ pairHashVal (mkPrimerPair F R bp pen pid t)
            = pairHashVal (mkPrimerPair F2 R2 bp2 pen2 pid2 t2) := by
    intro F R F2 R2 bp bp2 pen pen2 pid pid2 t t2 hd
    constructor
    · exact beq_iff_eq.mpr hd
    · exact congrArg hash hd
  constructor
  · intro F R F2 R2 bp bp2 pen pen2 pid pid2 t t2
    constructor
    · intro hpair
      exact beq_iff_eq.mp hpair.1
    · exact key F R F2 R2 bp bp2 pen pen2 pid pid2 t t2
  · intro F R F2 R2 bp bp2 pen pen2 pid pid2 t t2 h1 h2 h3 h4 h5 h6
    refine key F R F2 R2 bp bp2 pen pen2 pid pid2 t t2 ?_
    unfold derivePairId primerInfo
    rw [h1, h2, h3, h4, h5, h6]

/-- Witness for C9: two pairs built from primers with identical sequence,
start and length but different melting temperature, different product
size and different penalty are equal and hash identically. -/
theorem primer_pair_identity_witness :
    pairBeq (mkPrimerPair wPrimerF wPrimerR 210 "0.2")
        (mkPrimerPair wPrimerF2 wPrimerR 229 "0.9") = true
      ∧ pairHashVal (mkPrimerPair wPrimerF wPrimerR 210 "0.2")
          = pairHashVal (mkPrimerPair wPrimerF2 wPrimerR 229 "0.9") :=
  primer_pair_identity.2 wPrimerF wPrimerR wPrimerF2 wPrimerR 210 229
    "0.2" "0.9" "" "" none none rfl rfl rfl rfl rfl rfl

end Multiply
